import Mathlib

/-!
Verification of the expense-management application's core behaviors:
the tenant-scoped data-access wrapper (`src/lib/tenant-guard.ts`), the
company-creation transaction (`src/app/api/company/create/route.ts`), the
expense approval route, the expense server actions
(`src/lib/actions/expense-actions.ts`), the project server actions, and the
shared API response helpers (`src/lib/api-helpers.ts`).

Each definition is a shallow embedding of the corresponding TypeScript
function: database tables are lists of rows, Prisma where-clauses are
records holding the keys the code manipulates plus an opaque residual
predicate for caller-supplied keys, and fallible operations return
`Except`/`Option` or a response-state pair.
-/

namespace ExpMgmt

/-- Expense status enum from the Prisma schema vocabulary:
PENDING, APPROVED, REJECTED, ESCALATED. -/
inductive ExpenseStatus where
  | PENDING
  | APPROVED
  | REJECTED
  | ESCALATED
deriving DecidableEq, Repr

/-- Membership role enum: ADMIN, MANAGER, EMPLOYEE. -/
inductive Role where
  | ADMIN
  | MANAGER
  | EMPLOYEE
deriving DecidableEq, Repr

/-- A Project row: belongs to a Company, has an active flag. -/
structure Project where
  id : String
  companyId : String
  name : String
  active : Bool
deriving DecidableEq, Repr

/-- An Expense row: belongs to a Project and an employee User; amount in
integer minor units. -/
structure Expense where
  id : String
  projectId : String
  employeeId : String
  amountMinor : Int
  currency : String
  description : String
  category : String
  paidBy : String
  status : ExpenseStatus
deriving DecidableEq, Repr

/-! ## Tenant-scoped where-clause merging (`src/lib/tenant-guard.ts`)

For every companyId-scoped entity (project, membership, approvalPolicy,
auditLog, exchangeRateSnapshot) the wrapper forwards
`{ ...args?.where, companyId: this.companyId }` to Prisma: the caller's
keys are spread first and the tenant companyId key is written after them,
so it overrides any caller-supplied companyId. A where clause is modelled
as the optional value of its `companyId` key plus the conjunction of all
its other keys (`rest`); Prisma combines sibling keys conjunctively. -/

/-- A Prisma where-clause on an entity with a top-level `companyId` column:
`companyId` is the clause's companyId key when present; `rest` is the
conjunction of every other caller-supplied key. -/
structure ScopedWhere (Row : Type) where
  companyId : Option String
  rest : Row → Bool

/-- Row satisfaction for a scoped where-clause: the companyId key (when
present) and all other keys must hold. -/
def matchesScoped {Row : Type} (cid : Row → String) (w : ScopedWhere Row)
    (r : Row) : Bool :=
  (match w.companyId with
   | some c => cid r == c
   | none => true) && w.rest r

/-- The merge `{ ...args?.where, companyId: this.companyId }`: caller keys
spread first, tenant companyId written last, overriding the caller's. -/
def mergeTenantWhere {Row : Type} (w : Option (ScopedWhere Row))
    (tenantId : String) : ScopedWhere Row :=
  { companyId := some tenantId
    rest := match w with
      | some w0 => w0.rest
      | none => fun _ => true }

/-- `findMany` of a companyId-scoped wrapper method: filter the table by
the merged where-clause. -/
def scopedFindMany {Row : Type} (cid : Row → String) (db : List Row)
    (w : Option (ScopedWhere Row)) (tenantId : String) : List Row :=
  db.filter (matchesScoped cid (mergeTenantWhere w tenantId))

/-- `findUnique` of a companyId-scoped wrapper method: the first row
matching the merged where-clause, if any. -/
def scopedFindUnique {Row : Type} (cid : Row → String) (db : List Row)
    (w : ScopedWhere Row) (tenantId : String) : Option Row :=
  db.find? (matchesScoped cid (mergeTenantWhere (some w) tenantId))

/-- `count` of a companyId-scoped wrapper method: the number of rows
matching the merged where-clause. -/
def scopedCount {Row : Type} (cid : Row → String) (db : List Row)
    (w : Option (ScopedWhere Row)) (tenantId : String) : Nat :=
  (scopedFindMany cid db w tenantId).length

/-! ## Expense queries: scoped through the project relation

The expense methods merge `{ ...args?.where, project: { companyId } }`:
the tenant writes the whole `project` relation key after the caller's
keys, overriding any caller-supplied `project` sub-filter. -/

/-- A where-clause on the Project relation of an Expense. -/
structure ProjectRelWhere where
  companyId : Option String
  restP : Project → Bool

/-- A Prisma where-clause on Expense: the optional `project` relation key
plus the conjunction of every other caller-supplied key. -/
structure ExpenseWhere where
  project : Option ProjectRelWhere
  rest : Expense → Bool

/-- Resolve an expense's related Project row by id. -/
def findProject (projects : List Project) (pid : String) : Option Project :=
  projects.find? (fun p => p.id == pid)

/-- An expense satisfies a `project: {...}` relation filter when its
related project exists and satisfies the nested clause. -/
def matchesProjectRel (projects : List Project) (pw : ProjectRelWhere)
    (e : Expense) : Bool :=
  match findProject projects e.projectId with
  | some p =>
      (match pw.companyId with
       | some c => p.companyId == c
       | none => true) && pw.restP p
  | none => false

/-- Row satisfaction for an Expense where-clause. -/
def matchesExpense (projects : List Project) (w : ExpenseWhere)
    (e : Expense) : Bool :=
  (match w.project with
   | some pw => matchesProjectRel projects pw e
   | none => true) && w.rest e

/-- The merge `{ ...args?.where, project: { companyId: this.companyId } }`
performed by every expense wrapper method: the tenant's `project` key
replaces any caller-supplied `project` sub-filter. -/
def mergeTenantExpenseWhere (w : Option ExpenseWhere) (tenantId : String) :
    ExpenseWhere :=
  { project := some { companyId := some tenantId, restP := fun _ => true }
    rest := match w with
      | some w0 => w0.rest
      | none => fun _ => true }

/-- `TenantPrisma.expense.findMany`. -/
def expenseFindMany (projects : List Project) (expenses : List Expense)
    (w : Option ExpenseWhere) (tenantId : String) : List Expense :=
  expenses.filter (matchesExpense projects (mergeTenantExpenseWhere w tenantId))

/-- `TenantPrisma.expense.findUnique`. -/
def expenseFindUnique (projects : List Project) (expenses : List Expense)
    (w : ExpenseWhere) (tenantId : String) : Option Expense :=
  expenses.find? (matchesExpense projects (mergeTenantExpenseWhere (some w) tenantId))

/-- `TenantPrisma.expense.count`. -/
def expenseCountQ (projects : List Project) (expenses : List Expense)
    (w : Option ExpenseWhere) (tenantId : String) : Nat :=
  (expenseFindMany projects expenses w tenantId).length

/-! ## `TenantPrisma.expense.create` (tenant-guard.ts lines 141-148) -/

/-- The data payload of an expense create call. -/
structure ExpenseCreateData where
  projectId : String
  employeeId : String
  amountMinor : Int
  currency : String
  description : String
  category : String
  paidBy : String
  status : ExpenseStatus
deriving DecidableEq, Repr

/-- Build the inserted Expense row from create data and a fresh id. -/
def mkExpense (newId : String) (d : ExpenseCreateData) : Expense :=
  { id := newId
    projectId := d.projectId
    employeeId := d.employeeId
    amountMinor := d.amountMinor
    currency := d.currency
    description := d.description
    category := d.category
    paidBy := d.paidBy
    status := d.status }

/-- `TenantPrisma.expense.create`: first
`prisma.project.findUniqueOrThrow({ where: { id: data.projectId, companyId } })`
(throws when no such project exists in the tenant's company), then the
insert with the caller's args unchanged. -/
def expenseCreate (projects : List Project) (expenses : List Expense)
    (tenantId : String) (newId : String) (d : ExpenseCreateData) :
    Except String (List Expense) :=
  match projects.find? (fun p => p.id == d.projectId && p.companyId == tenantId) with
  | none => .error "NotFoundError"
  | some _ => .ok (expenses ++ [mkExpense newId d])

/-! ## Remaining data model rows -/

/-- A Company row: the tenant boundary. -/
structure Company where
  id : String
  name : String
  baseCurrency : String
deriving DecidableEq, Repr

/-- A User row: global identity. -/
structure User where
  id : String
  email : String
  name : String
  passwordHash : String
deriving DecidableEq, Repr

/-- A Membership row: joins a User to a Company with a Role. -/
structure Membership where
  userId : String
  companyId : String
  role : Role
deriving DecidableEq, Repr

/-- Approval policy type enum: MAJORITY or PERCENTAGE. -/
inductive PolicyType where
  | MAJORITY
  | PERCENTAGE
deriving DecidableEq, Repr

/-- An ApprovalPolicy row. `maxPerEmployeeMinor` and the threshold fields
are nullable BigInt columns, modelled as `Option Int`. -/
structure ApprovalPolicy where
  companyId : String
  ptype : PolicyType
  thresholdPercent : Option Int
  maxPerEmployeeMinor : Option Int
  largeExpenseThresholdMinor : Option Int
  requireCeoForLarge : Bool
deriving DecidableEq, Repr

/-- Approval decision enum: APPROVE or REJECT. -/
inductive Decision where
  | APPROVE
  | REJECT
deriving DecidableEq, Repr

/-- An Approval row: a manager's recorded decision on an Expense. -/
structure Approval where
  expenseId : String
  managerId : String
  decision : Decision
  note : Option String
deriving DecidableEq, Repr

/-- An AuditLog row. The free-form `meta` payload is not modelled. -/
structure AuditLog where
  companyId : String
  actorUserId : String
  action : String
  entity : String
  entityId : String
deriving DecidableEq, Repr

/-- A session: (userId, companyId, role) as minted at login. -/
structure Session where
  userId : String
  companyId : String
  role : Role
deriving DecidableEq, Repr

/-- The relational database state: one list of rows per table. -/
structure AppDb where
  companies : List Company
  users : List User
  memberships : List Membership
  policies : List ApprovalPolicy
  projects : List Project
  expenses : List Expense
  approvals : List Approval
  auditLogs : List AuditLog
deriving DecidableEq, Repr

/-! ## HTTP response model (`src/lib/api-helpers.ts`)

A serialized JSON body is modelled by which keys it carries: a field is
`none` (or `false` for the presence flags) exactly when the key is absent
from the object `NextResponse.json` serializes (JSON.stringify drops
`undefined`-valued keys). -/

/-- A serialized response body: `success` is `none` when the object has no
`success` key at all. -/
structure ResponseBody where
  success : Option Bool
  error : Option String
  message : Option String
  hasData : Bool
  hasDetails : Bool
deriving DecidableEq, Repr

/-- An HTTP response: status code plus serialized body. -/
structure HttpResponse where
  status : Nat
  body : ResponseBody
deriving DecidableEq, Repr

/-- `createSuccessResponse(data, message?)`: status 200 (NextResponse.json
default) with body `{success: true, data, message?}`. -/
def createSuccessResponse (message : Option String) : HttpResponse :=
  { status := 200
    body := { success := some true, error := none, message := message
              hasData := true, hasDetails := false } }

/-- `createErrorResponse(error, status = 400, details?)`: body
`{success: false, error, details?}` with the given status. -/
def createErrorResponse (error : String) (status : Nat) (details : Bool) :
    HttpResponse :=
  { status := status
    body := { success := some false, error := some error, message := none
              hasData := false, hasDetails := details } }

/-- A response built by a route calling `NextResponse.json({error: ...},
{status})` directly, bypassing the helpers: the body has an `error` key
but no `success` key. -/
def bareErrorResponse (error : String) (status : Nat) (details : Bool) :
    HttpResponse :=
  { status := status
    body := { success := none, error := some error, message := none
              hasData := false, hasDetails := details } }

/-! ## POST /api/company/create (`src/app/api/company/create/route.ts`) -/

/-- The request body of POST /api/company/create. -/
structure CreateCompanyBody where
  companyName : String
  adminName : String
  adminEmail : String
  adminPassword : String
deriving DecidableEq, Repr

/-- Shallow model of `z.string().email()`: the address carries an at sign. -/
def isValidEmail (s : String) : Bool :=
  s.data.any (fun c => c == Char.ofNat 64)

/-- `createCompanySchema`: companyName and adminName nonempty, adminEmail a
valid email, adminPassword at least 6 characters. -/
def validCreateCompanyBody (b : CreateCompanyBody) : Bool :=
  b.companyName.length ≥ 1 && b.adminName.length ≥ 1 &&
    isValidEmail b.adminEmail && b.adminPassword.length ≥ 6

/-- External-failure injection for the writes that follow
`tx.company.create` inside the transaction: a true flag means the database
rejects that write and the transaction callback throws there. -/
structure TxnFailure where
  userCreate : Bool
  membershipCreate : Bool
  policyCreate : Bool
deriving DecidableEq, Repr

/-- The `prisma.$transaction` callback of POST /api/company/create: create
the Company, the admin User, the ADMIN Membership and the default
ApprovalPolicy in order; an error anywhere aborts the whole transaction. -/
def companyCreateTxn (db : AppDb) (b : CreateCompanyBody)
    (companyId userId passwordHash : String) (f : TxnFailure) :
    Except String AppDb :=
  let company : Company :=
    { id := companyId, name := b.companyName, baseCurrency := "USD" }
  let db1 := { db with companies := db.companies ++ [company] }
  if f.userCreate then .error "user create failed" else
  let adminUser : User :=
    { id := userId, email := b.adminEmail, name := b.adminName
      passwordHash := passwordHash }
  let db2 := { db1 with users := db1.users ++ [adminUser] }
  if f.membershipCreate then .error "membership create failed" else
  let adminMembership : Membership :=
    { userId := userId, companyId := companyId, role := Role.ADMIN }
  let db3 := { db2 with memberships := db2.memberships ++ [adminMembership] }
  if f.policyCreate then .error "policy create failed" else
  let defaultPolicy : ApprovalPolicy :=
    { companyId := companyId, ptype := PolicyType.PERCENTAGE
      thresholdPercent := some 50, maxPerEmployeeMinor := some 100000
      largeExpenseThresholdMinor := some 500000, requireCeoForLarge := false }
  .ok { db3 with policies := db3.policies ++ [defaultPolicy] }

/-- POST /api/company/create: validate the body, reject duplicate company
name or admin email, then run the four writes in one transaction;
`prisma.$transaction` rolls the database back to its pre-transaction state
when the callback throws, and the catch block answers 500. The error
branches build `NextResponse.json({error, ...}, {status})` directly, so
their bodies carry no `success` key. -/
def companyCreatePOST (db : AppDb) (b : CreateCompanyBody)
    (companyId userId passwordHash : String) (f : TxnFailure) :
    HttpResponse × AppDb :=
  if !(validCreateCompanyBody b) then
    (bareErrorResponse "Validation failed" 400 true, db)
  else if db.companies.any (fun c => c.name == b.companyName) then
    (bareErrorResponse "A company with this name already exists" 400 false, db)
  else if db.users.any (fun u => u.email == b.adminEmail) then
    (bareErrorResponse "A user with this email already exists" 400 false, db)
  else
    match companyCreateTxn db b companyId userId passwordHash f with
    | .error _ =>
        (bareErrorResponse "Failed to create company" 500 false, db)
    | .ok db2 =>
        ({ status := 200
           body := { success := some true, error := none, message := none
                     hasData := true, hasDetails := false } }, db2)

/-! ## POST /api/expenses/[id]/approve (approve route) -/

/-- `requireRole`: the session role must be one of the allowed roles
(requiredRole.includes(session.role)). -/
def requireRoleOk (roles : List Role) (s : Session) : Bool :=
  roles.any (fun r => r == s.role)

/-- `prisma.expense.update` by id: rewrite the status of the matching row. -/
def setExpenseStatus (expenses : List Expense) (eid : String)
    (st : ExpenseStatus) : List Expense :=
  expenses.map (fun e => if e.id == eid then { e with status := st } else e)

/-- The action string written by the approve route. -/
def approveActionString (d : Decision) : String :=
  match d with
  | .APPROVE => "EXPENSE_APPROVE"
  | .REJECT => "EXPENSE_REJECT"

/-- The success message of the approve route
(decision.toLowerCase() with a d appended). -/
def approveMessage (d : Decision) : String :=
  match d with
  | .APPROVE => "Expense approved successfully"
  | .REJECT => "Expense rejectd successfully"

/-- JavaScript String.prototype.split on a one-character separator, over
the character list of the string: always at least one (possibly empty)
segment, empty segments kept. -/
def splitSegs (sep : Char) (cs : List Char) : List (List Char) :=
  match cs with
  | [] => [[]]
  | c :: rest =>
    let r := splitSegs sep rest
    if c == sep then [] :: r
    else
      match r with
      | [] => [[c]]
      | seg :: segs => (c :: seg) :: segs

/-- The approve route's expense-id derivation,
`url.pathname.split('/').pop()`: the last slash-separated segment of the
request pathname (split always yields at least one segment, so pop never
sees an empty array). -/
def lastSegment (path : String) : String :=
  match (splitSegs (Char.ofNat 47) path.data).getLast? with
  | some seg => String.mk seg
  | none => ""

/-- The body of the approve handler after its expense-id derivation,
wrapped by `createApiHandler` with requiredRole MANAGER or ADMIN: look the
expense up by id through the raw (unscoped) client, check its project's
company against the session, require status PENDING, then update the
status and insert an Approval row and an AuditLog row. The inline error
branches build `NextResponse.json({error}, {status})` directly (no
`success` key); a missing related project would make the handler throw,
which the wrapper catch collapses to a 500. -/
def approveHandler (db : AppDb) (s : Session) (expenseId : String)
    (decision : Decision) (note : Option String) : HttpResponse × AppDb :=
  if !(requireRoleOk [Role.MANAGER, Role.ADMIN] s) then
    (createErrorResponse "Forbidden" 403 false, db)
  else if expenseId.isEmpty then
    (bareErrorResponse "Expense ID is required" 400 false, db)
  else
    match db.expenses.find? (fun e => e.id == expenseId) with
    | none => (bareErrorResponse "Expense not found" 404 false, db)
    | some expense =>
      match findProject db.projects expense.projectId with
      | none => (createErrorResponse "Internal server error" 500 false, db)
      | some p =>
        if p.companyId ≠ s.companyId then
          (bareErrorResponse "Unauthorized" 403 false, db)
        else if expense.status ≠ ExpenseStatus.PENDING then
          (bareErrorResponse "Expense is not pending approval" 400 false, db)
        else
          let newStatus := match decision with
            | .APPROVE => ExpenseStatus.APPROVED
            | .REJECT => ExpenseStatus.REJECTED
          let newApproval : Approval :=
            { expenseId := expenseId, managerId := s.userId
              decision := decision, note := note }
          let newLog : AuditLog :=
            { companyId := s.companyId, actorUserId := s.userId
              action := approveActionString decision
              entity := "Expense", entityId := expenseId }
          (createSuccessResponse (some (approveMessage decision)),
           { db with
             expenses := setExpenseStatus db.expenses expenseId newStatus
             approvals := db.approvals ++ [newApproval]
             auditLogs := db.auditLogs ++ [newLog] })

/-- POST on the route mounted at /api/expenses/[id]/approve: the handler
first derives the expense id as `url.pathname.split('/').pop()` - the
LAST segment of the request pathname - and then runs the approval logic
on that string. On the mounted path the last segment is the literal
"approve", never the [id] segment. -/
def approvePOST (db : AppDb) (s : Session) (path : String)
    (decision : Decision) (note : Option String) : HttpResponse × AppDb :=
  approveHandler db s (lastSegment path) decision note

/-! ## Expense server actions (`src/lib/actions/expense-actions.ts`) -/

/-- Result of a server action as `createServerAction` returns it:
`{success, data?, error?}`. -/
structure ActionResult where
  success : Bool
  error : Option String
deriving DecidableEq, Repr

/-- The validated input of the createExpense server action. The form's
`amount` field is a string run through `parseFloat`; `none` models a
non-numeric string (NaN). -/
structure CreateExpenseInput where
  projectId : String
  amount : Option ℚ
  currency : String
  description : String
  category : String
  paidBy : String
deriving DecidableEq, Repr

/-- The per-company approval policy the action reads:
`tenant.approvalPolicy.findMany()` then `approvalPolicies[0] || null`. -/
def firstPolicy (db : AppDb) (companyId : String) : Option ApprovalPolicy :=
  (db.policies.filter (fun pol => pol.companyId == companyId)).head?

/-- The cap test of createExpense:
`if (approvalPolicy?.maxPerEmployeeMinor)` is JavaScript truthiness, so a
null or zero cap skips the check; otherwise the amount is compared
strictly against maxPerEmployeeMinor / 100. -/
def capBlocks (policy : Option ApprovalPolicy) (amount : ℚ) : Bool :=
  match policy with
  | some pol =>
    match pol.maxPerEmployeeMinor with
    | some m => if m ≠ 0 then decide (amount > (m : ℚ) / 100) else false
    | none => false
  | none => false

/-- The createExpense server action: validate the parsed amount
(`isNaN(amountNumber) || amountNumber <= 0`), require an active project in
the tenant's company, apply the cap check, convert to minor units with
`Math.round(amountNumber * 100)` (modelled by `round`, which is
floor(x + 1/2), the JavaScript Math.round), then insert through
`tenant.expense.create` with status PENDING. -/
def createExpenseAction (db : AppDb) (s : Session) (i : CreateExpenseInput)
    (newId : String) : ActionResult × AppDb :=
  match i.amount with
  | none => ({ success := false, error := some "Invalid amount" }, db)
  | some q =>
    if q ≤ 0 then
      ({ success := false, error := some "Invalid amount" }, db)
    else
      match db.projects.find?
          (fun p => p.id == i.projectId && p.companyId == s.companyId) with
      | none =>
          ({ success := false, error := some "Project not found or inactive" }, db)
      | some p =>
        if !p.active then
          ({ success := false, error := some "Project not found or inactive" }, db)
        else if capBlocks (firstPolicy db s.companyId) q then
          ({ success := false
             error := some "Amount exceeds maximum per employee limit" }, db)
        else
          let d : ExpenseCreateData :=
            { projectId := i.projectId, employeeId := s.userId
              amountMinor := round (q * 100), currency := i.currency
              description := i.description, category := i.category
              paidBy := i.paidBy, status := ExpenseStatus.PENDING }
          match expenseCreate db.projects db.expenses s.companyId newId d with
          | .error msg => ({ success := false, error := some msg }, db)
          | .ok es => ({ success := true, error := none },
                       { db with expenses := es })

/-- The validated body of POST /api/expenses. Its zod schema takes
`amountMinor` directly as a number. -/
structure ApiCreateExpenseInput where
  projectId : String
  amountMinor : Int
  currency : String
  description : String
  category : String
  paidBy : String
deriving DecidableEq, Repr

/-- The route's `createExpenseSchema`: amountMinor a positive integer,
currency exactly 3 characters, description 1..500, category 1..100,
paidBy 1..100, projectId a cuid (modelled as nonempty). -/
def validApiCreateExpense (i : ApiCreateExpenseInput) : Bool :=
  i.projectId.length ≥ 1 && i.amountMinor > 0 && i.currency.length == 3 &&
    (1 ≤ i.description.length && i.description.length ≤ 500) &&
    (1 ≤ i.category.length && i.category.length ≤ 100) &&
    (1 ≤ i.paidBy.length && i.paidBy.length ≤ 100)

/-- POST /api/expenses, wrapped by `createApiHandler` (any role, zod
validation). The handler requires the project through the tenant wrapper
(a thrown not-found collapses to 500 in the wrapper catch), then inserts
through `tenant.expense.create` with status PENDING and appends an audit
log. Note: this path reads no ApprovalPolicy and applies no cap check,
and does not test `project.active`. -/
def expensesPOST (db : AppDb) (s : Session) (i : ApiCreateExpenseInput)
    (newId : String) : HttpResponse × AppDb :=
  if !(requireRoleOk [Role.ADMIN, Role.MANAGER, Role.EMPLOYEE] s) then
    (createErrorResponse "Forbidden" 403 false, db)
  else if !(validApiCreateExpense i) then
    (createErrorResponse "Invalid request data" 400 true, db)
  else
    match db.projects.find?
        (fun p => p.id == i.projectId && p.companyId == s.companyId) with
    | none => (createErrorResponse "Project not found" 500 false, db)
    | some _ =>
      let d : ExpenseCreateData :=
        { projectId := i.projectId, employeeId := s.userId
          amountMinor := i.amountMinor, currency := i.currency
          description := i.description, category := i.category
          paidBy := i.paidBy, status := ExpenseStatus.PENDING }
      match expenseCreate db.projects db.expenses s.companyId newId d with
      | .error msg => (createErrorResponse msg 500 false, db)
      | .ok es =>
        let newLog : AuditLog :=
          { companyId := s.companyId, actorUserId := s.userId
            action := "CREATE_EXPENSE", entity := "Expense", entityId := newId }
        (createSuccessResponse (some "Expense created successfully"),
         { db with expenses := es, auditLogs := db.auditLogs ++ [newLog] })

/-- `tenant.expense.findUnique({where: {id}})` as the expense actions call
it: the merged where-clause is the caller's id key plus the tenant's
project-relation filter. -/
def tenantExpenseById (db : AppDb) (companyId id : String) : Option Expense :=
  expenseFindUnique db.projects db.expenses
    { project := none, rest := fun e => e.id == id } companyId

/-- `tenant.expense.update({where: {id}, data})`: rewrite every row
matching the merged where-clause. -/
def tenantExpenseUpdate (db : AppDb) (companyId id : String)
    (f : Expense → Expense) : List Expense :=
  db.expenses.map (fun e =>
    if matchesExpense db.projects
        (mergeTenantExpenseWhere
          (some { project := none, rest := fun x => x.id == id }) companyId) e
    then f e else e)

/-- `tenant.expense.delete({where: {id}})`: drop every row matching the
merged where-clause. -/
def tenantExpenseDelete (db : AppDb) (companyId id : String) : List Expense :=
  db.expenses.filter (fun e =>
    !(matchesExpense db.projects
        (mergeTenantExpenseWhere
          (some { project := none, rest := fun x => x.id == id }) companyId) e))

/-- The validated input of the updateExpense server action
(createExpenseSchema.partial() plus the id). `amount` is
`some none` when an amount string was supplied but parses to NaN. -/
structure UpdateExpenseInput where
  id : String
  projectId : Option String
  amount : Option (Option ℚ)
  currency : Option String
  description : Option String
  category : Option String
  paidBy : Option String
deriving DecidableEq, Repr

/-- The update action's amount validation: a supplied amount that is NaN
or not strictly positive is invalid; an absent amount is fine. -/
def amountFieldInvalid (a : Option (Option ℚ)) : Bool :=
  match a with
  | some none => true
  | some (some q) => decide (q ≤ 0)
  | none => false

/-- Build the `updateFields` object of updateExpense: each supplied field
replaces the stored one; a supplied amount is converted with
`Math.round(amountNumber * 100)`. -/
def applyExpenseUpdate (u : UpdateExpenseInput) (e : Expense) : Expense :=
  { e with
    projectId := u.projectId.getD e.projectId
    description := u.description.getD e.description
    category := u.category.getD e.category
    paidBy := u.paidBy.getD e.paidBy
    amountMinor := match u.amount with
      | some (some q) => round (q * 100)
      | _ => e.amountMinor
    currency := u.currency.getD e.currency }

/-- The updateExpense server action: the expense must be found through the
tenant wrapper and owned by the session user, must be PENDING, and a
supplied amount must parse positive; then the row is updated through the
tenant wrapper. -/
def updateExpenseAction (db : AppDb) (s : Session) (u : UpdateExpenseInput) :
    ActionResult × AppDb :=
  match tenantExpenseById db s.companyId u.id with
  | none =>
      ({ success := false, error := some "Expense not found or access denied" }, db)
  | some existing =>
    if existing.employeeId ≠ s.userId then
      ({ success := false, error := some "Expense not found or access denied" }, db)
    else if existing.status ≠ ExpenseStatus.PENDING then
      ({ success := false, error := some "Cannot update non-pending expenses" }, db)
    else if amountFieldInvalid u.amount then
      ({ success := false, error := some "Invalid amount" }, db)
    else
      ({ success := true, error := none },
       { db with expenses :=
          tenantExpenseUpdate db s.companyId u.id (applyExpenseUpdate u) })

/-- The deleteExpense server action: the expense must be found through the
tenant wrapper, owned by the session user and PENDING; then the row is
deleted through the tenant wrapper. -/
def deleteExpenseAction (db : AppDb) (s : Session) (id : String) :
    ActionResult × AppDb :=
  match tenantExpenseById db s.companyId id with
  | none =>
      ({ success := false, error := some "Expense not found or access denied" }, db)
  | some existing =>
    if existing.employeeId ≠ s.userId then
      ({ success := false, error := some "Expense not found or access denied" }, db)
    else if existing.status ≠ ExpenseStatus.PENDING then
      ({ success := false, error := some "Cannot delete non-pending expenses" }, db)
    else
      ({ success := true, error := none },
       { db with expenses := tenantExpenseDelete db s.companyId id })

/-! ## deleteProject server action (project actions file) -/

/-- The deleteProject server action (requiredRole ADMIN): look the project
up through the tenant wrapper, count its expenses through
`tenant.expense.count({where: {projectId: id}})`, refuse when any exist,
else delete the row through the tenant wrapper and append an audit log.
(The trailing redirect is page navigation and is not modelled.) -/
def deleteProjectAction (db : AppDb) (s : Session) (id : String) :
    ActionResult × AppDb :=
  if !(requireRoleOk [Role.ADMIN] s) then
    ({ success := false, error := some "FORBIDDEN" }, db)
  else if id.isEmpty then
    ({ success := false, error := some "Project ID is required" }, db)
  else
    match db.projects.find?
        (fun p => p.id == id && p.companyId == s.companyId) with
    | none => ({ success := false, error := some "Project not found" }, db)
    | some _ =>
      let cnt := expenseCountQ db.projects db.expenses
        (some { project := none, rest := fun e => e.projectId == id }) s.companyId
      if cnt > 0 then
        ({ success := false
           error := some "Cannot delete project with existing expenses" }, db)
      else
        let newLog : AuditLog :=
          { companyId := s.companyId, actorUserId := s.userId
            action := "DELETE_PROJECT", entity := "Project", entityId := id }
        ({ success := true, error := none },
         { db with
           projects := db.projects.filter
             (fun p => !(p.id == id && p.companyId == s.companyId))
           auditLogs := db.auditLogs ++ [newLog] })

/-! ## Helper lemmas -/

/-- Any row satisfying a tenant-merged where-clause carries the tenant's
companyId, whatever the caller put in their clause. -/
theorem matchesScoped_merged_companyId {Row : Type} (cid : Row → String)
    (w : Option (ScopedWhere Row)) (tenantId : String) (r : Row)
    (h : matchesScoped cid (mergeTenantWhere w tenantId) r = true) :
    cid r = tenantId := by
  simp only [matchesScoped, mergeTenantWhere, Bool.and_eq_true, beq_iff_eq] at h
  exact h.1

/-- Any expense satisfying a tenant-merged expense where-clause has a
related project in the tenant's company. -/
theorem matchesExpense_merged_companyId (projects : List Project)
    (w : Option ExpenseWhere) (tenantId : String) (e : Expense)
    (h : matchesExpense projects (mergeTenantExpenseWhere w tenantId) e = true) :
    ∃ p, findProject projects e.projectId = some p ∧ p.companyId = tenantId := by
  simp only [matchesExpense, mergeTenantExpenseWhere, Bool.and_eq_true] at h
  obtain ⟨h1, _⟩ := h
  cases hp : findProject projects e.projectId with
  | none =>
      rw [matchesProjectRel, hp] at h1
      exact absurd h1 (by simp)
  | some p =>
      rw [matchesProjectRel, hp] at h1
      simp only [Bool.and_eq_true, beq_iff_eq] at h1
      exact ⟨p, rfl, h1.1⟩

/-! ## Claim theorems -/

/-- C1: every entity query method of the TenantPrisma wrapper — the
companyId-scoped findMany/findUnique/count (project, membership,
approvalPolicy, auditLog, exchangeRateSnapshot) and the
project-relation-scoped expense findMany/findUnique/count — returns only
rows of the wrapper's company, for every caller-supplied argument object,
including one whose where clause names a different companyId: the tenant
filter is merged after the caller's and overrides it. -/
theorem tenant_query_isolation {Row : Type} (cid : Row → String)
    (db : List Row) (w : Option (ScopedWhere Row)) (w1 : ScopedWhere Row)
    (tenantId : String) (projects : List Project) (expenses : List Expense)
    (ew : Option ExpenseWhere) (ew1 : ExpenseWhere) :
    (∀ r ∈ scopedFindMany cid db w tenantId, cid r = tenantId) ∧
    (∀ r, scopedFindUnique cid db w1 tenantId = some r → cid r = tenantId) ∧
    scopedCount cid db w tenantId =
      (db.filter (matchesScoped cid (mergeTenantWhere w tenantId))).length ∧
    (∀ e ∈ expenseFindMany projects expenses ew tenantId,
      ∃ p, findProject projects e.projectId = some p ∧ p.companyId = tenantId) ∧
    (∀ e, expenseFindUnique projects expenses ew1 tenantId = some e →
      ∃ p, findProject projects e.projectId = some p ∧ p.companyId = tenantId) ∧
    expenseCountQ projects expenses ew tenantId =
      (expenses.filter
        (matchesExpense projects (mergeTenantExpenseWhere ew tenantId))).length := by
  refine ⟨?_, ?_, rfl, ?_, ?_, rfl⟩
  · intro r hr
    rw [scopedFindMany, List.mem_filter] at hr
    exact matchesScoped_merged_companyId cid w tenantId r hr.2
  · intro r hr
    rw [scopedFindUnique] at hr
    exact matchesScoped_merged_companyId cid (some w1) tenantId r
      (List.find?_some hr)
  · intro e he
    rw [expenseFindMany, List.mem_filter] at he
    exact matchesExpense_merged_companyId projects ew tenantId e he.2
  · intro e he
    rw [expenseFindUnique] at he
    exact matchesExpense_merged_companyId projects (some ew1) tenantId e
      (List.find?_some he)

/-- Witness for C1: with tenant company A and a caller filter naming
company B, the one row findMany returns belongs to company A. -/
theorem tenant_query_isolation_witness :
    Project.companyId { id := "p1", companyId := "A", name := "P", active := true } = "A" :=
  (tenant_query_isolation Project.companyId
      [{ id := "p1", companyId := "A", name := "P", active := true },
       { id := "p2", companyId := "B", name := "Q", active := true }]
      (some { companyId := some "B", rest := fun _ => true })
      { companyId := some "B", rest := fun _ => true } "A"
      [] [] none { project := none, rest := fun _ => true }).1
    { id := "p1", companyId := "A", name := "P", active := true } (by decide)

/-- C7: `TenantPrisma.expense.create` succeeds (inserting the row) exactly
when the referenced Project belongs to the caller's company; otherwise the
guard read throws and no Expense row is inserted. -/
theorem expense_create_guard (projects : List Project)
    (expenses : List Expense) (tenantId newId : String)
    (d : ExpenseCreateData) :
    ((∃ p ∈ projects, p.id = d.projectId ∧ p.companyId = tenantId) →
      expenseCreate projects expenses tenantId newId d =
        Except.ok (expenses ++ [mkExpense newId d])) ∧
    ((¬ ∃ p ∈ projects, p.id = d.projectId ∧ p.companyId = tenantId) →
      expenseCreate projects expenses tenantId newId d =
        Except.error "NotFoundError") := by
  constructor
  · rintro ⟨p, hp, hid, hcid⟩
    rw [expenseCreate]
    cases hfind : projects.find?
        (fun p => p.id == d.projectId && p.companyId == tenantId) with
    | none =>
        exfalso
        have hnone := List.find?_eq_none.mp hfind p hp
        simp only [Bool.and_eq_true, beq_iff_eq] at hnone
        exact hnone ⟨hid, hcid⟩
    | some q => rfl
  · intro h
    rw [expenseCreate]
    cases hfind : projects.find?
        (fun p => p.id == d.projectId && p.companyId == tenantId) with
    | none => rfl
    | some q =>
        exfalso
        have hq := List.find?_some hfind
        have hmem := List.mem_of_find?_eq_some hfind
        simp only [Bool.and_eq_true, beq_iff_eq] at hq
        exact h ⟨q, hmem, hq.1, hq.2⟩

/-- Witness for C7: creating an expense against a project of company A
from a tenant scoped to company B throws the guard error. -/
theorem expense_create_guard_witness :
    expenseCreate [{ id := "p1", companyId := "A", name := "P", active := true }]
      [] "B" "e1"
      { projectId := "p1", employeeId := "u1", amountMinor := 100
        currency := "USD", description := "d", category := "c"
        paidBy := "card", status := ExpenseStatus.PENDING } =
      Except.error "NotFoundError" :=
  (expense_create_guard
      [{ id := "p1", companyId := "A", name := "P", active := true }]
      [] "B" "e1"
      { projectId := "p1", employeeId := "u1", amountMinor := 100
        currency := "USD", description := "d", category := "c"
        paidBy := "card", status := ExpenseStatus.PENDING }).2 (by decide)

/-- C2: company creation runs its four writes (Company, admin User, ADMIN
Membership, default ApprovalPolicy) in one transaction: if any write after
the Company create fails, the request leaves the database exactly as it
was (no orphan Company row); if the request succeeds, all four rows are in
the final state. -/
theorem company_create_atomic (db : AppDb) (b : CreateCompanyBody)
    (companyId userId passwordHash : String) (f : TxnFailure) :
    ((f.userCreate = true ∨ f.membershipCreate = true ∨ f.policyCreate = true) →
      (companyCreatePOST db b companyId userId passwordHash f).2 = db) ∧
    ((companyCreatePOST db b companyId userId passwordHash f).1.body.success =
        some true →
      (companyCreatePOST db b companyId userId passwordHash f).2.companies =
        db.companies ++
          [{ id := companyId, name := b.companyName, baseCurrency := "USD" }] ∧
      (companyCreatePOST db b companyId userId passwordHash f).2.users =
        db.users ++
          [{ id := userId, email := b.adminEmail, name := b.adminName
             passwordHash := passwordHash }] ∧
      (companyCreatePOST db b companyId userId passwordHash f).2.memberships =
        db.memberships ++
          [{ userId := userId, companyId := companyId, role := Role.ADMIN }] ∧
      (companyCreatePOST db b companyId userId passwordHash f).2.policies =
        db.policies ++
          [{ companyId := companyId, ptype := PolicyType.PERCENTAGE
             thresholdPercent := some 50, maxPerEmployeeMinor := some 100000
             largeExpenseThresholdMinor := some 500000
             requireCeoForLarge := false }]) := by
  obtain ⟨fu, fm, fp⟩ := f
  cases hv : validCreateCompanyBody b with
  | false =>
      constructor
      · intro _
        simp [companyCreatePOST, hv]
      · intro h
        simp [companyCreatePOST, hv, bareErrorResponse] at h
  | true =>
      cases hc : db.companies.any (fun c => c.name == b.companyName) with
      | true =>
          constructor
          · intro _
            simp [companyCreatePOST, hv, hc]
          · intro h
            simp [companyCreatePOST, hv, hc, bareErrorResponse] at h
      | false =>
          cases hu : db.users.any (fun u => u.email == b.adminEmail) with
          | true =>
              constructor
              · intro _
                simp [companyCreatePOST, hv, hc, hu]
              · intro h
                simp [companyCreatePOST, hv, hc, hu, bareErrorResponse] at h
          | false =>
              have e1 : companyCreatePOST db b companyId userId passwordHash
                  ⟨fu, fm, fp⟩ =
                  match companyCreateTxn db b companyId userId passwordHash
                      ⟨fu, fm, fp⟩ with
                  | .error _ =>
                      (bareErrorResponse "Failed to create company" 500 false, db)
                  | .ok db2 =>
                      ({ status := 200
                         body := { success := some true, error := none
                                   message := none, hasData := true
                                   hasDetails := false } }, db2) := by
                rw [companyCreatePOST, hv, hc, hu]
                simp
              cases fu <;> cases fm <;> cases fp <;>
                constructor <;> intro h <;>
                first
                  | (rcases h with h | h | h <;> exact absurd h (by decide))
                  | (rw [e1] at h; simp [companyCreateTxn, bareErrorResponse] at h
                     try (rw [e1]; simp [companyCreateTxn]))
                  | (rw [e1]; simp [companyCreateTxn, bareErrorResponse])

/-- Witness for C2: with an injected admin-user-creation failure the
database is unchanged, and the same request without the failure ends with
success. -/
theorem company_create_atomic_witness :
    (companyCreatePOST
        { companies := [], users := [], memberships := [], policies := []
          projects := [], expenses := [], approvals := [], auditLogs := [] }
        { companyName := "Acme", adminName := "Ada"
          adminEmail := "ada@x.io", adminPassword := "secret1" }
        "c1" "u1" "hash"
        { userCreate := true, membershipCreate := false
          policyCreate := false }).2 =
      { companies := [], users := [], memberships := [], policies := []
        projects := [], expenses := [], approvals := [], auditLogs := [] } :=
  (company_create_atomic
      { companies := [], users := [], memberships := [], policies := []
        projects := [], expenses := [], approvals := [], auditLogs := [] }
      { companyName := "Acme", adminName := "Ada"
        adminEmail := "ada@x.io", adminPassword := "secret1" }
      "c1" "u1" "hash"
      { userCreate := true, membershipCreate := false
        policyCreate := false }).1 (Or.inl rfl)

/-- C3 (code bug): the route is mounted at /api/expenses/[id]/approve -
its own doc comment and its caller say so - but the handler derives the
expense id as the LAST path segment, which on that path is always the
literal segment "approve", never the id. Evaluated at the failing input
(a MANAGER of company A approving the PENDING expense e1 of their company
through the real URL), the route answers 404 with an Expense-not-found
error and leaves the database - including the PENDING status of e1 -
completely unchanged, where the claim requires the transition to APPROVED
plus one Approval and one AuditLog row. -/
theorem approve_route_id_extraction_bug :
    lastSegment "/api/expenses/e1/approve" = "approve" ∧
    (approvePOST
        { companies := [], users := [], memberships := [], policies := []
          projects := [{ id := "p1", companyId := "A", name := "P", active := true }]
          expenses := [{ id := "e1", projectId := "p1", employeeId := "u2"
                         amountMinor := 4500, currency := "USD"
                         description := "d", category := "c", paidBy := "card"
                         status := ExpenseStatus.PENDING }]
          approvals := [], auditLogs := [] }
        { userId := "mgr", companyId := "A", role := Role.MANAGER }
        "/api/expenses/e1/approve" Decision.APPROVE none).1.status = 404 ∧
    (approvePOST
        { companies := [], users := [], memberships := [], policies := []
          projects := [{ id := "p1", companyId := "A", name := "P", active := true }]
          expenses := [{ id := "e1", projectId := "p1", employeeId := "u2"
                         amountMinor := 4500, currency := "USD"
                         description := "d", category := "c", paidBy := "card"
                         status := ExpenseStatus.PENDING }]
          approvals := [], auditLogs := [] }
        { userId := "mgr", companyId := "A", role := Role.MANAGER }
        "/api/expenses/e1/approve" Decision.APPROVE none).1.body.error =
      some "Expense not found" ∧
    (approvePOST
        { companies := [], users := [], memberships := [], policies := []
          projects := [{ id := "p1", companyId := "A", name := "P", active := true }]
          expenses := [{ id := "e1", projectId := "p1", employeeId := "u2"
                         amountMinor := 4500, currency := "USD"
                         description := "d", category := "c", paidBy := "card"
                         status := ExpenseStatus.PENDING }]
          approvals := [], auditLogs := [] }
        { userId := "mgr", companyId := "A", role := Role.MANAGER }
        "/api/expenses/e1/approve" Decision.APPROVE none).2 =
      { companies := [], users := [], memberships := [], policies := []
        projects := [{ id := "p1", companyId := "A", name := "P", active := true }]
        expenses := [{ id := "e1", projectId := "p1", employeeId := "u2"
                       amountMinor := 4500, currency := "USD"
                       description := "d", category := "c", paidBy := "card"
                       status := ExpenseStatus.PENDING }]
        approvals := [], auditLogs := [] } := by
  decide

/-- Counterexample to C4 as stated: on the JSON API path POST
/api/expenses, with the company's ApprovalPolicy cap at 100000 minor
units, a request for 200000 minor units succeeds and the expense row is
stored - the route reads no policy and runs no cap check. -/
theorem expense_cap_api_counterexample :
    ((expensesPOST
        { companies := [], users := [], memberships := []
          policies := [{ companyId := "A", ptype := PolicyType.PERCENTAGE
                         thresholdPercent := some 50
                         maxPerEmployeeMinor := some 100000
                         largeExpenseThresholdMinor := some 500000
                         requireCeoForLarge := false }]
          projects := [{ id := "p1", companyId := "A", name := "P", active := true }]
          expenses := [], approvals := [], auditLogs := [] }
        { userId := "u1", companyId := "A", role := Role.EMPLOYEE }
        { projectId := "p1", amountMinor := 200000, currency := "USD"
          description := "d", category := "c", paidBy := "card" }
        "e9").1.body.success = some true) ∧
    { id := "e9", projectId := "p1", employeeId := "u1"
      amountMinor := 200000, currency := "USD", description := "d"
      category := "c", paidBy := "card"
      status := ExpenseStatus.PENDING } ∈
      (expensesPOST
        { companies := [], users := [], memberships := []
          policies := [{ companyId := "A", ptype := PolicyType.PERCENTAGE
                         thresholdPercent := some 50
                         maxPerEmployeeMinor := some 100000
                         largeExpenseThresholdMinor := some 500000
                         requireCeoForLarge := false }]
          projects := [{ id := "p1", companyId := "A", name := "P", active := true }]
          expenses := [], approvals := [], auditLogs := [] }
        { userId := "u1", companyId := "A", role := Role.EMPLOYEE }
        { projectId := "p1", amountMinor := 200000, currency := "USD"
          description := "d", category := "c", paidBy := "card" }
        "e9").2.expenses := by
  decide

/-- C4 amended: the per-employee cap is enforced only on the server-action
creation path, and only when the stored cap is non-null and non-zero
(JavaScript truthiness skips a zero cap): there, an amount strictly above
cap / 100 makes createExpense fail and leaves the database unchanged. The
JSON API POST /api/expenses applies no cap check. -/
theorem expense_cap_server_action (db : AppDb) (s : Session)
    (i : CreateExpenseInput) (newId : String) (pol : ApprovalPolicy)
    (m : ℤ) (q : ℚ)
    (hq : i.amount = some q)
    (hpol : firstPolicy db s.companyId = some pol)
    (hm : pol.maxPerEmployeeMinor = some m) (hm0 : m ≠ 0)
    (hgt : (m : ℚ) / 100 < q) :
    (createExpenseAction db s i newId).1.success = false ∧
    (createExpenseAction db s i newId).2 = db := by
  have hcap : capBlocks (firstPolicy db s.companyId) q = true := by
    simp [capBlocks, hpol, hm, hm0, hgt]
  by_cases hq0 : q ≤ 0
  · simp [createExpenseAction, hq, hq0]
  · cases hfind : db.projects.find?
        (fun p => p.id == i.projectId && p.companyId == s.companyId) with
    | none => simp [createExpenseAction, hq, hq0, hfind]
    | some p =>
      cases hact : p.active with
      | false => simp [createExpenseAction, hq, hq0, hfind, hact]
      | true => simp [createExpenseAction, hq, hq0, hfind, hact, hcap]

/-- Witness for the amended C4: with a 100000-minor-unit cap, a 2000-major
-unit request through the server action fails and changes nothing. -/
theorem expense_cap_server_action_witness :
    (createExpenseAction
        { companies := [], users := [], memberships := []
          policies := [{ companyId := "A", ptype := PolicyType.PERCENTAGE
                         thresholdPercent := some 50
                         maxPerEmployeeMinor := some 100000
                         largeExpenseThresholdMinor := some 500000
                         requireCeoForLarge := false }]
          projects := [{ id := "p1", companyId := "A", name := "P", active := true }]
          expenses := [], approvals := [], auditLogs := [] }
        { userId := "u1", companyId := "A", role := Role.EMPLOYEE }
        { projectId := "p1", amount := some 2000, currency := "USD"
          description := "d", category := "c", paidBy := "card" }
        "e9").1.success = false :=
  (expense_cap_server_action
      { companies := [], users := [], memberships := []
        policies := [{ companyId := "A", ptype := PolicyType.PERCENTAGE
                       thresholdPercent := some 50
                       maxPerEmployeeMinor := some 100000
                       largeExpenseThresholdMinor := some 500000
                       requireCeoForLarge := false }]
        projects := [{ id := "p1", companyId := "A", name := "P", active := true }]
        expenses := [], approvals := [], auditLogs := [] }
      { userId := "u1", companyId := "A", role := Role.EMPLOYEE }
      { projectId := "p1", amount := some 2000, currency := "USD"
        description := "d", category := "c", paidBy := "card" }
      "e9"
      { companyId := "A", ptype := PolicyType.PERCENTAGE
        thresholdPercent := some 50, maxPerEmployeeMinor := some 100000
        largeExpenseThresholdMinor := some 500000, requireCeoForLarge := false }
      100000 2000 rfl (by decide) rfl (by decide) (by norm_num)).1

/-- Modelled from the spec: the documented success-response shape -
status 200 with body success true, a data key, no error key. -/
def specSuccessShape (r : HttpResponse) : Prop :=
  r.status = 200 ∧ r.body.success = some true ∧ r.body.hasData = true ∧
    r.body.error = none

/-- Modelled from the spec: the documented error-response shape - body
success false with an error key. -/
def specErrorShape (r : HttpResponse) : Prop :=
  r.body.success = some false ∧ r.body.error.isSome = true

/-- The shape the direct NextResponse.json error branches actually
produce: an error key but no success key at all. -/
def bareErrorShape (r : HttpResponse) : Prop :=
  r.body.success = none ∧ r.body.error.isSome = true

/-- Counterexample to C5 as stated: the duplicate-company-name error of
POST /api/company/create answers 400 with an error key but no success key
at all, not the documented body with success false. -/
theorem response_shape_counterexample :
    ((companyCreatePOST
        { companies := [{ id := "c1", name := "Acme", baseCurrency := "USD" }]
          users := [], memberships := [], policies := []
          projects := [], expenses := [], approvals := [], auditLogs := [] }
        { companyName := "Acme", adminName := "Ada"
          adminEmail := "ada@x.io", adminPassword := "secret1" }
        "c2" "u1" "h"
        { userCreate := false, membershipCreate := false
          policyCreate := false }).1.status = 400) ∧
    ((companyCreatePOST
        { companies := [{ id := "c1", name := "Acme", baseCurrency := "USD" }]
          users := [], memberships := [], policies := []
          projects := [], expenses := [], approvals := [], auditLogs := [] }
        { companyName := "Acme", adminName := "Ada"
          adminEmail := "ada@x.io", adminPassword := "secret1" }
        "c2" "u1" "h"
        { userCreate := false, membershipCreate := false
          policyCreate := false }).1.body.error =
      some "A company with this name already exists") ∧
    ((companyCreatePOST
        { companies := [{ id := "c1", name := "Acme", baseCurrency := "USD" }]
          users := [], memberships := [], policies := []
          projects := [], expenses := [], approvals := [], auditLogs := [] }
        { companyName := "Acme", adminName := "Ada"
          adminEmail := "ada@x.io", adminPassword := "secret1" }
        "c2" "u1" "h"
        { userCreate := false, membershipCreate := false
          policyCreate := false }).1.body.success = none) := by
  decide

/-- C5 amended: the shared helpers do produce the documented shapes
(success true with data; success false with error and caller-chosen
status), and success responses of the company-create and approve routes
are success-shaped; but the error branches those two routes build with
NextResponse.json directly answer 400/403/404/500 with an error key and
no success key at all. -/
theorem response_shapes (message : Option String) (err : String)
    (status : Nat) (details : Bool) (db : AppDb) (b : CreateCompanyBody)
    (companyId userId passwordHash : String) (f : TxnFailure) (s : Session)
    (path : String) (decision : Decision) (note : Option String) :
    specSuccessShape (createSuccessResponse message) ∧
    ((createErrorResponse err status details).status = status ∧
      specErrorShape (createErrorResponse err status details)) ∧
    (specSuccessShape (companyCreatePOST db b companyId userId passwordHash f).1 ∨
      (bareErrorShape (companyCreatePOST db b companyId userId passwordHash f).1 ∧
        ((companyCreatePOST db b companyId userId passwordHash f).1.status = 400 ∨
         (companyCreatePOST db b companyId userId passwordHash f).1.status = 500))) ∧
    (specSuccessShape (approvePOST db s path decision note).1 ∨
      specErrorShape (approvePOST db s path decision note).1 ∨
      (bareErrorShape (approvePOST db s path decision note).1 ∧
        ((approvePOST db s path decision note).1.status = 400 ∨
         (approvePOST db s path decision note).1.status = 403 ∨
         (approvePOST db s path decision note).1.status = 404))) := by
  refine ⟨⟨rfl, rfl, rfl, rfl⟩, ⟨rfl, rfl, rfl⟩, ?_, ?_⟩
  · rw [companyCreatePOST]
    split
    · exact Or.inr ⟨⟨rfl, rfl⟩, Or.inl rfl⟩
    · split
      · exact Or.inr ⟨⟨rfl, rfl⟩, Or.inl rfl⟩
      · split
        · exact Or.inr ⟨⟨rfl, rfl⟩, Or.inl rfl⟩
        · split
          · exact Or.inr ⟨⟨rfl, rfl⟩, Or.inr rfl⟩
          · exact Or.inl ⟨rfl, rfl, rfl, rfl⟩
  · rw [approvePOST.eq_def, approveHandler.eq_def]
    split
    · exact Or.inr (Or.inl ⟨rfl, rfl⟩)
    · split
      · exact Or.inr (Or.inr ⟨⟨rfl, rfl⟩, Or.inl rfl⟩)
      · split
        · exact Or.inr (Or.inr ⟨⟨rfl, rfl⟩, Or.inr (Or.inr rfl)⟩)
        · split
          · exact Or.inr (Or.inl ⟨rfl, rfl⟩)
          · split
            · exact Or.inr (Or.inr ⟨⟨rfl, rfl⟩, Or.inr (Or.inl rfl)⟩)
            · split
              · exact Or.inr (Or.inr ⟨⟨rfl, rfl⟩, Or.inl rfl⟩)
              · exact Or.inl ⟨rfl, rfl, rfl, rfl⟩

/-- C6: an Expense update or delete through the server actions succeeds
only when the expense (looked up through the tenant wrapper) is owned by
the session user and PENDING; for a missing expense, another actor, or a
non-PENDING status the action fails and the database is unchanged. -/
theorem expense_owner_pending_guard (db : AppDb) (s : Session)
    (u : UpdateExpenseInput) (id : String) :
    ((updateExpenseAction db s u).1.success = true →
      ∃ e, tenantExpenseById db s.companyId u.id = some e ∧
        e.employeeId = s.userId ∧ e.status = ExpenseStatus.PENDING) ∧
    (∀ e, tenantExpenseById db s.companyId u.id = some e →
      (e.employeeId ≠ s.userId ∨ e.status ≠ ExpenseStatus.PENDING) →
      (updateExpenseAction db s u).1.success = false ∧
      (updateExpenseAction db s u).2 = db) ∧
    (tenantExpenseById db s.companyId u.id = none →
      (updateExpenseAction db s u).1.success = false ∧
      (updateExpenseAction db s u).2 = db) ∧
    ((deleteExpenseAction db s id).1.success = true →
      ∃ e, tenantExpenseById db s.companyId id = some e ∧
        e.employeeId = s.userId ∧ e.status = ExpenseStatus.PENDING) ∧
    (∀ e, tenantExpenseById db s.companyId id = some e →
      (e.employeeId ≠ s.userId ∨ e.status ≠ ExpenseStatus.PENDING) →
      (deleteExpenseAction db s id).1.success = false ∧
      (deleteExpenseAction db s id).2 = db) ∧
    (tenantExpenseById db s.companyId id = none →
      (deleteExpenseAction db s id).1.success = false ∧
      (deleteExpenseAction db s id).2 = db) := by
  refine ⟨?_, ?_, ?_, ?_, ?_, ?_⟩
  · intro hs
    cases hfind : tenantExpenseById db s.companyId u.id with
    | none => simp [updateExpenseAction, hfind] at hs
    | some e =>
      by_cases h1 : e.employeeId = s.userId
      · by_cases h2 : e.status = ExpenseStatus.PENDING
        · exact ⟨e, rfl, h1, h2⟩
        · simp [updateExpenseAction, hfind, h1, h2] at hs
      · simp [updateExpenseAction, hfind, h1] at hs
  · intro e hfind hbad
    rcases hbad with h1 | h2
    · constructor <;> simp [updateExpenseAction, hfind, h1]
    · by_cases h1 : e.employeeId = s.userId
      · constructor <;> simp [updateExpenseAction, hfind, h1, h2]
      · constructor <;> simp [updateExpenseAction, hfind, h1]
  · intro hfind
    constructor <;> simp [updateExpenseAction, hfind]
  · intro hs
    cases hfind : tenantExpenseById db s.companyId id with
    | none => simp [deleteExpenseAction, hfind] at hs
    | some e =>
      by_cases h1 : e.employeeId = s.userId
      · by_cases h2 : e.status = ExpenseStatus.PENDING
        · exact ⟨e, rfl, h1, h2⟩
        · simp [deleteExpenseAction, hfind, h1, h2] at hs
      · simp [deleteExpenseAction, hfind, h1] at hs
  · intro e hfind hbad
    rcases hbad with h1 | h2
    · constructor <;> simp [deleteExpenseAction, hfind, h1]
    · by_cases h1 : e.employeeId = s.userId
      · constructor <;> simp [deleteExpenseAction, hfind, h1, h2]
      · constructor <;> simp [deleteExpenseAction, hfind, h1]
  · intro hfind
    constructor <;> simp [deleteExpenseAction, hfind]

/-- Witness for C6: a different employee of the same company cannot delete
someone's PENDING expense. -/
theorem expense_owner_pending_guard_witness :
    (deleteExpenseAction
        { companies := [], users := [], memberships := [], policies := []
          projects := [{ id := "p1", companyId := "A", name := "P", active := true }]
          expenses := [{ id := "e1", projectId := "p1", employeeId := "u2"
                         amountMinor := 4500, currency := "USD"
                         description := "d", category := "c", paidBy := "card"
                         status := ExpenseStatus.PENDING }]
          approvals := [], auditLogs := [] }
        { userId := "u3", companyId := "A", role := Role.EMPLOYEE }
        "e1").1.success = false :=
  ((expense_owner_pending_guard
      { companies := [], users := [], memberships := [], policies := []
        projects := [{ id := "p1", companyId := "A", name := "P", active := true }]
        expenses := [{ id := "e1", projectId := "p1", employeeId := "u2"
                       amountMinor := 4500, currency := "USD"
                       description := "d", category := "c", paidBy := "card"
                       status := ExpenseStatus.PENDING }]
        approvals := [], auditLogs := [] }
      { userId := "u3", companyId := "A", role := Role.EMPLOYEE }
      { id := "e1", projectId := none, amount := none, currency := none
        description := none, category := none, paidBy := none }
      "e1").2.2.2.2.1
    { id := "e1", projectId := "p1", employeeId := "u2"
      amountMinor := 4500, currency := "USD"
      description := "d", category := "c", paidBy := "card"
      status := ExpenseStatus.PENDING }
    (by decide) (Or.inl (by decide))).1

/-- Math.round of 100 times a positive rational is a non-negative
integer. -/
theorem round_hundred_nonneg (q : ℚ) (h : 0 < q) : 0 ≤ round (q * 100) := by
  rw [round_eq]
  refine Int.floor_nonneg.mpr ?_
  nlinarith

/-- The POST /api/expenses role list admits every role. -/
theorem requireRoleOk_all (s : Session) :
    requireRoleOk [Role.ADMIN, Role.MANAGER, Role.EMPLOYEE] s = true := by
  obtain ⟨uid, cid, r⟩ := s
  cases r <;> rfl

/-- C8: a creation request whose amount is non-numeric (NaN) or not
strictly positive fails with the validation error and stores nothing -
on the server action via the parseFloat check, on the JSON API via the
zod positive-integer schema (status 400) - and every accepted creation
stores a non-negative integer amountMinor. -/
theorem expense_amount_validation (db : AppDb) (s : Session)
    (i : CreateExpenseInput) (api : ApiCreateExpenseInput) (newId : String) :
    ((i.amount = none ∨ ∃ q, i.amount = some q ∧ q ≤ 0) →
      (createExpenseAction db s i newId).1.success = false ∧
      (createExpenseAction db s i newId).1.error = some "Invalid amount" ∧
      (createExpenseAction db s i newId).2 = db) ∧
    ((createExpenseAction db s i newId).1.success = true →
      ∃ q, i.amount = some q ∧ 0 < q ∧
        (createExpenseAction db s i newId).2.expenses =
          db.expenses ++
            [mkExpense newId
              { projectId := i.projectId, employeeId := s.userId
                amountMinor := round (q * 100), currency := i.currency
                description := i.description, category := i.category
                paidBy := i.paidBy, status := ExpenseStatus.PENDING }] ∧
        0 ≤ round (q * 100)) ∧
    (api.amountMinor ≤ 0 →
      (expensesPOST db s api newId).1.status = 400 ∧
      (expensesPOST db s api newId).1.body.success = some false ∧
      (expensesPOST db s api newId).2 = db) ∧
    ((expensesPOST db s api newId).1.body.success = some true →
      (expensesPOST db s api newId).2.expenses =
        db.expenses ++
          [mkExpense newId
            { projectId := api.projectId, employeeId := s.userId
              amountMinor := api.amountMinor, currency := api.currency
              description := api.description, category := api.category
              paidBy := api.paidBy, status := ExpenseStatus.PENDING }] ∧
      0 < api.amountMinor) := by
  have hr := requireRoleOk_all s
  refine ⟨?_, ?_, ?_, ?_⟩
  · rintro (hnone | ⟨q, hq, hle⟩)
    · refine ⟨?_, ?_, ?_⟩ <;> simp [createExpenseAction, hnone]
    · refine ⟨?_, ?_, ?_⟩ <;> simp [createExpenseAction, hq, hle]
  · intro hs
    cases hamt : i.amount with
    | none => simp [createExpenseAction, hamt] at hs
    | some q =>
      by_cases hq0 : q ≤ 0
      · simp [createExpenseAction, hamt, hq0] at hs
      · have hqpos : 0 < q := lt_of_not_le hq0
        cases hfind : db.projects.find?
            (fun p => p.id == i.projectId && p.companyId == s.companyId) with
        | none => simp [createExpenseAction, hamt, hq0, hfind] at hs
        | some p =>
          cases hact : p.active with
          | false => simp [createExpenseAction, hamt, hq0, hfind, hact] at hs
          | true =>
            by_cases hcap : capBlocks (firstPolicy db s.companyId) q = true
            · simp [createExpenseAction, hamt, hq0, hfind, hact, hcap] at hs
            · refine ⟨q, rfl, hqpos, ?_, round_hundred_nonneg q hqpos⟩
              simp [createExpenseAction, hamt, hq0, hfind, hact, hcap,
                expenseCreate]
  · intro hle
    have hv : validApiCreateExpense api = false := by
      unfold validApiCreateExpense
      simp
      intro _ h2
      exact absurd h2 (by omega)
    refine ⟨?_, ?_, ?_⟩ <;> simp [expensesPOST, hr, hv, createErrorResponse]
  · intro hs
    cases hv : validApiCreateExpense api with
    | false => simp [expensesPOST, hr, hv, createErrorResponse] at hs
    | true =>
      have hpos : 0 < api.amountMinor := by
        unfold validApiCreateExpense at hv
        simp [Bool.and_eq_true] at hv
        omega
      cases hfind : db.projects.find?
          (fun p => p.id == api.projectId && p.companyId == s.companyId) with
      | none => simp [expensesPOST, hr, hv, hfind, createErrorResponse] at hs
      | some p =>
        refine ⟨?_, hpos⟩
        simp [expensesPOST, hr, hv, hfind, expenseCreate]

/-- Witness for C8: a zero amount through the server action fails with the
validation message. -/
theorem expense_amount_validation_witness :
    (createExpenseAction
        { companies := [], users := [], memberships := [], policies := []
          projects := [{ id := "p1", companyId := "A", name := "P", active := true }]
          expenses := [], approvals := [], auditLogs := [] }
        { userId := "u1", companyId := "A", role := Role.EMPLOYEE }
        { projectId := "p1", amount := some 0, currency := "USD"
          description := "d", category := "c", paidBy := "card" }
        "e9").1.error = some "Invalid amount" :=
  ((expense_amount_validation
      { companies := [], users := [], memberships := [], policies := []
        projects := [{ id := "p1", companyId := "A", name := "P", active := true }]
        expenses := [], approvals := [], auditLogs := [] }
      { userId := "u1", companyId := "A", role := Role.EMPLOYEE }
      { projectId := "p1", amount := some 0, currency := "USD"
        description := "d", category := "c", paidBy := "card" }
      { projectId := "p1", amountMinor := 1, currency := "USD"
        description := "d", category := "c", paidBy := "card" }
      "e9").1 (Or.inr ⟨0, rfl, le_refl 0⟩)).2.1

/-- C9: for an ADMIN deleting a project of their company: when the
tenant-scoped expense count for the project is positive the action fails
and the database is unchanged (the project remains); when it is zero the
action succeeds and the project row is removed. -/
theorem delete_project_guard (db : AppDb) (s : Session) (id : String)
    (p : Project)
    (hrole : s.role = Role.ADMIN) (hne : id.isEmpty = false)
    (hfind : db.projects.find?
      (fun x => x.id == id && x.companyId == s.companyId) = some p) :
    (0 < expenseCountQ db.projects db.expenses
        (some { project := none, rest := fun e => e.projectId == id })
        s.companyId →
      (deleteProjectAction db s id).1.success = false ∧
      (deleteProjectAction db s id).2 = db) ∧
    (expenseCountQ db.projects db.expenses
        (some { project := none, rest := fun e => e.projectId == id })
        s.companyId = 0 →
      (deleteProjectAction db s id).1.success = true ∧
      (deleteProjectAction db s id).2.projects =
        db.projects.filter
          (fun x => !(x.id == id && x.companyId == s.companyId)) ∧
      p ∉ (deleteProjectAction db s id).2.projects) := by
  have hradmin : requireRoleOk [Role.ADMIN] s = true := by
    simp [requireRoleOk, hrole]
  constructor
  · intro hcnt
    constructor <;> simp [deleteProjectAction, hradmin, hne, hfind, hcnt]
  · intro hcnt
    have hp := List.find?_some hfind
    have heq : (deleteProjectAction db s id).2.projects =
        db.projects.filter
          (fun x => !(x.id == id && x.companyId == s.companyId)) := by
      simp [deleteProjectAction, hradmin, hne, hfind, hcnt]
    refine ⟨?_, heq, ?_⟩
    · simp [deleteProjectAction, hradmin, hne, hfind, hcnt]
    · rw [heq]
      intro hmem
      rw [List.mem_filter] at hmem
      have h2 := hmem.2
      rw [hp] at h2
      exact absurd h2 (by decide)

/-- Witness for C9: an ADMIN deleting an expense-free project succeeds. -/
theorem delete_project_guard_witness :
    (deleteProjectAction
        { companies := [], users := [], memberships := [], policies := []
          projects := [{ id := "p1", companyId := "A", name := "P", active := true }]
          expenses := [], approvals := [], auditLogs := [] }
        { userId := "adm", companyId := "A", role := Role.ADMIN }
        "p1").1.success = true :=
  ((delete_project_guard
      { companies := [], users := [], memberships := [], policies := []
        projects := [{ id := "p1", companyId := "A", name := "P", active := true }]
        expenses := [], approvals := [], auditLogs := [] }
      { userId := "adm", companyId := "A", role := Role.ADMIN }
      "p1"
      { id := "p1", companyId := "A", name := "P", active := true }
      rfl (by decide) (by decide)).2 (by decide)).1

/-- C10: the per-employee cap comparison is strict: through the server
action, an amount exactly equal to maxPerEmployeeMinor / 100 major units
(cap positive, project active in the company) passes the cap check and the
expense is created, storing exactly maxPerEmployeeMinor minor units. -/
theorem cap_equality_passes (db : AppDb) (s : Session)
    (i : CreateExpenseInput) (newId : String) (pol : ApprovalPolicy)
    (m : ℤ) (p : Project)
    (hm0 : 0 < m)
    (hq : i.amount = some ((m : ℚ) / 100))
    (hpol : firstPolicy db s.companyId = some pol)
    (hmax : pol.maxPerEmployeeMinor = some m)
    (hfind : db.projects.find?
      (fun x => x.id == i.projectId && x.companyId == s.companyId) = some p)
    (hactive : p.active = true) :
    (createExpenseAction db s i newId).1.success = true ∧
    (createExpenseAction db s i newId).2.expenses =
      db.expenses ++
        [mkExpense newId
          { projectId := i.projectId, employeeId := s.userId
            amountMinor := m, currency := i.currency
            description := i.description, category := i.category
            paidBy := i.paidBy, status := ExpenseStatus.PENDING }] := by
  have hqpos : 0 < (m : ℚ) / 100 := by positivity
  have hnle : ¬((m : ℚ) / 100 ≤ 0) := not_le.mpr hqpos
  have hcap : capBlocks (firstPolicy db s.companyId) ((m : ℚ) / 100) = false := by
    simp [capBlocks, hpol, hmax, hm0.ne']
  have hround : round ((m : ℚ) / 100 * 100) = m := by
    have hmul : (m : ℚ) / 100 * 100 = (m : ℚ) := by field_simp
    rw [hmul, round_intCast]
  constructor <;>
    simp [createExpenseAction, hq, hnle, hfind, hactive, hcap, expenseCreate,
      hround]

/-- Witness for C10: with the default 100000-minor-unit cap, a request for
exactly 1000 major units is created and stored as 100000 minor units. -/
theorem cap_equality_passes_witness :
    (createExpenseAction
        { companies := [], users := [], memberships := []
          policies := [{ companyId := "A", ptype := PolicyType.PERCENTAGE
                         thresholdPercent := some 50
                         maxPerEmployeeMinor := some 100000
                         largeExpenseThresholdMinor := some 500000
                         requireCeoForLarge := false }]
          projects := [{ id := "p1", companyId := "A", name := "P", active := true }]
          expenses := [], approvals := [], auditLogs := [] }
        { userId := "u1", companyId := "A", role := Role.EMPLOYEE }
        { projectId := "p1", amount := some 1000, currency := "USD"
          description := "d", category := "c", paidBy := "card" }
        "e9").1.success = true :=
  (cap_equality_passes
      { companies := [], users := [], memberships := []
        policies := [{ companyId := "A", ptype := PolicyType.PERCENTAGE
                       thresholdPercent := some 50
                       maxPerEmployeeMinor := some 100000
                       largeExpenseThresholdMinor := some 500000
                       requireCeoForLarge := false }]
        projects := [{ id := "p1", companyId := "A", name := "P", active := true }]
        expenses := [], approvals := [], auditLogs := [] }
      { userId := "u1", companyId := "A", role := Role.EMPLOYEE }
      { projectId := "p1", amount := some 1000, currency := "USD"
        description := "d", category := "c", paidBy := "card" }
      "e9"
      { companyId := "A", ptype := PolicyType.PERCENTAGE
        thresholdPercent := some 50, maxPerEmployeeMinor := some 100000
        largeExpenseThresholdMinor := some 500000, requireCeoForLarge := false }
      100000
      { id := "p1", companyId := "A", name := "P", active := true }
      (by norm_num) (by norm_num) (by decide) rfl (by decide) rfl).1

end ExpMgmt
